import Mathlib

/-!
Verification of the Lab-Marker Time-Series Tracker logic of `Model.py`
(a Streamlit dashboard).  The development shallowly embeds the locally
executed code:

* `extract_numeric` (Model.py lines 85-88): a Python `re.search` with the
  pattern `[-+]?\d*\.\d+|\d+` applied to `str(text)`, returning
  `float(match.group())` on success and `None` otherwise.  We embed the
  search semantics of this specific pattern: start positions are scanned
  left to right; at each position the decimal-with-fraction alternative
  (optional sign, `\d*`, a dot, `\d+`) is tried first, with its
  backtracking, then the bare-integer alternative `\d+`.  Matched text is
  read as an exact rational (Python floats are modelled as rationals; the
  claims only involve short decimal literals).
* the `all_markers` construction of tab 4 (lines 777-789): for every
  history entry and every pair in its `lab_markers` mapping, numeric
  extraction is attempted and, only on success, a row holding the entry
  timestamp, the label lowercased and stripped, and the value is appended.
* the statistics block of tab 4 (lines 817-848): the latest value is shown
  whenever the filtered series is nonempty; when it has more than one
  point the code computes `first_val`, `diff = current_val - first_val`,
  the guarded percent change, displays `abs(diff)` as the Total Change
  metric, and classifies the trend with fixed thresholds `percent > 5`
  and `percent < -5`.
-/

/-- Python `\d` on the inputs of interest (ASCII): the characters 0-9. -/
def isDig (c : Char) : Bool := c.isDigit

/-- Value of a digit string read in base 10 (the value of `\d*` or `\d+`
matched text; the empty integer part of a literal like `.5` reads as 0). -/
def natOfDigits (ds : List Char) : ℕ :=
  ds.foldl (fun n c => 10 * n + (c.toNat - 48)) 0

/-- The body of the first regex alternative after the optional sign:
`\d*\.\d+` with Python backtracking.  Since `\d*` is greedy over a
contiguous digit run and the next token is a literal dot, the body matches
exactly when the maximal digit run is followed by a dot and at least one
digit; the matched text is that run, the dot, and the maximal digit run
after the dot.  The returned rational is the value of the matched text. -/
def matchDecimalBody (l : List Char) : Option ℚ :=
  match l.dropWhile isDig with
  | [] => none
  | c :: rest2 =>
      if c = '.' then
        match rest2.takeWhile isDig with
        | [] => none
        | f :: fs =>
            some ((natOfDigits (l.takeWhile isDig) : ℚ)
              + (natOfDigits (f :: fs) : ℚ) / (10 : ℚ) ^ (f :: fs).length)
      else none

/-- The first regex alternative `[-+]?\d*\.\d+` at a fixed start position.
The engine tries the optional sign consumed first; if the body then fails,
the attempt without the sign also fails (the character under scan is a
sign, which matches neither `\d` nor the dot), so the alternative reduces
to: consume a sign when present, then match the body. -/
def matchAltA (l : List Char) : Option ℚ :=
  match l with
  | [] => none
  | c :: rest =>
      if c = '-' then (matchDecimalBody rest).map (fun q => -q)
      else if c = '+' then matchDecimalBody rest
      else matchDecimalBody (c :: rest)

/-- The second regex alternative `\d+` at a fixed start position (greedy,
maximal digit run). -/
def matchAltB (l : List Char) : Option ℚ :=
  match l with
  | [] => none
  | c :: rest =>
      if isDig c then some (natOfDigits ((c :: rest).takeWhile isDig) : ℚ)
      else none

/-- `re.search` of `[-+]?\d*\.\d+|\d+`: start positions are scanned left
to right; at each position the decimal alternative is tried before the
bare-integer alternative; the first success wins. -/
def searchFrom : List Char → Option ℚ
  | [] => none
  | c :: rest =>
      match matchAltA (c :: rest) with
      | some q => some q
      | none =>
          match matchAltB (c :: rest) with
          | some q => some q
          | none => searchFrom rest

/-- `extract_numeric` on a string argument: the regex search followed by
`float` on the matched text when a match exists, `None` otherwise. -/
def extractNumericStr (s : String) : Option ℚ :=
  searchFrom s.data

/-- A Python value that may reach `extract_numeric`.  The function is
called on the entries of an upstream JSON mapping, which can be strings,
numbers, booleans, nulls or lists. -/
inductive PyValue where
  | pynone
  | pystr (s : String)
  | pyint (n : ℤ)
  | pybool (b : Bool)
  | pylist (xs : List PyValue)

mutual

/-- Python `repr` restricted to the modelled values (string escaping is
not modelled; the labels and values of interest contain no quotes). -/
def pyRepr : PyValue → String
  | .pynone => "None"
  | .pystr s => ("'") ++ s ++ ("'")
  | .pyint n => toString n
  | .pybool true => "True"
  | .pybool false => "False"
  | .pylist xs => ("[") ++ String.intercalate (", ") (pyReprList xs) ++ ("]")

/-- `repr` of each element of a list, in order (used by the list case). -/
def pyReprList : List PyValue → List String
  | [] => []
  | v :: vs => pyRepr v :: pyReprList vs

end

/-- Python `str`: the identity on strings, `repr` on the other modelled
values. -/
def pyStr : PyValue → String
  | .pystr s => s
  | .pynone => pyRepr .pynone
  | .pyint n => pyRepr (.pyint n)
  | .pybool b => pyRepr (.pybool b)
  | .pylist xs => pyRepr (.pylist xs)

/-- `extract_numeric(text)` in full: `re.search` runs on `str(text)`. -/
def extractNumeric (v : PyValue) : Option ℚ :=
  extractNumericStr (pyStr v)

/-- Python `m_name.lower().strip()` at the character level: lowercase every
character, then drop whitespace from both ends (ASCII-faithful; the
markers of interest are ASCII). -/
def lowerStrip (l : List Char) : List Char :=
  ((((l.map Char.toLower).dropWhile Char.isWhitespace).reverse.dropWhile
    Char.isWhitespace).reverse)

/-- Normalized marker label, as built in the `all_markers` loop. -/
def normalizeLabel (s : String) : String :=
  String.mk (lowerStrip s.data)

/-- One entry of `st.session_state.clinical_history` as used by tab 4: its
timestamp and the `lab_markers` mapping of its data, in insertion order. -/
structure ReportEntry where
  timestamp : String
  labMarkers : List (String × PyValue)

/-- One row of the `all_markers` list: the Date, Marker and Value fields. -/
structure MarkerPoint where
  date : String
  marker : String
  value : ℚ
deriving DecidableEq

/-- The rows contributed by one history entry: for every labelled value in
`lab_markers`, in order, a row is appended exactly when `extract_numeric`
returns a value; the Marker field is the lowercased, stripped label. -/
def markersOfEntry (e : ReportEntry) : List MarkerPoint :=
  e.labMarkers.filterMap (fun lv =>
    match extractNumeric lv.2 with
    | some q => some ⟨e.timestamp, normalizeLabel lv.1, q⟩
    | none => none)

/-- The `all_markers` list built by iterating over the clinical history in
order. -/
def buildAllMarkers : List ReportEntry → List MarkerPoint
  | [] => []
  | e :: rest => markersOfEntry e ++ buildAllMarkers rest

/-- The values of `df[df["Marker"] == selected]` in row order:
the rows whose Marker field equals the selected key, values in the order
the rows were appended (before the date sort). -/
def seriesFor (rows : List MarkerPoint) (key : String) : List ℚ :=
  (rows.filter (fun r => r.marker == key)).map (fun r => r.value)

/-- The three branches of the trend indicator of tab 4. -/
inductive Direction where
  | up
  | down
  | stable
deriving DecidableEq

instance : Inhabited Direction := ⟨Direction.stable⟩

/-- The trend indicator branch taken for a given percent change:
`if percent > 5` shows Trending UP, `elif percent < -5` shows Trending
DOWN, and otherwise Stable. -/
def trendIndicator (percent : ℚ) : Direction :=
  if percent > 5 then Direction.up
  else if percent < -5 then Direction.down
  else Direction.stable

/-- The quantities computed and shown by the statistics column when the
plotted series has more than one point.  `totalChangeShown` is the value
string of the Total Change metric, which the code renders from
`abs(diff)`; the signed percent is rendered as its delta. -/
structure TrendStats where
  firstVal : ℚ
  latestVal : ℚ
  diff : ℚ
  totalChangeShown : ℚ
  percent : ℚ
  readings : ℕ
  direction : Direction
deriving DecidableEq

instance : Inhabited TrendStats :=
  ⟨⟨0, 0, 0, 0, 0, 0, Direction.stable⟩⟩

/-- The Latest Value metric: shown whenever the series is nonempty, from
`plot_df["Value"].iloc[-1]`, the last element of the plotted series. -/
def latestValueShown : List ℚ → Option ℚ
  | [] => none
  | v :: rest => some ((v :: rest).getLast (List.cons_ne_nil v rest))

/-- The statistics block of tab 4 on the plotted value series (the Value
column of the date-sorted frame): computed only when more than one point
exists; `first_val` is the first element, `current_val` the last,
`diff = current_val - first_val`,
`percent = (diff / first_val) * 100 if first_val != 0 else 0`, the Total
Change metric shows `abs(diff)` with the signed percent as its delta, the
Readings metric shows the length, and the trend indicator classifies
`percent` against the fixed thresholds. -/
def computeStats : List ℚ → Option TrendStats
  | [] => none
  | [_] => none
  | v :: w :: rest =>
      let current := (w :: rest).getLast (List.cons_ne_nil w rest)
      let first := v
      let diff := current - first
      let percent := if first ≠ 0 then diff / first * 100 else 0
      some ⟨first, current, diff, |diff|, percent,
        (v :: w :: rest).length, trendIndicator percent⟩

/-! Helper lemmas (shared; none of them is a claim theorem). -/

/-- Unfolding of the statistics block on a series of two or more points. -/
theorem computeStats_cons_cons (v w : ℚ) (rest : List ℚ) :
    computeStats (v :: w :: rest) =
      some ⟨v, (w :: rest).getLast (List.cons_ne_nil w rest),
        (w :: rest).getLast (List.cons_ne_nil w rest) - v,
        |(w :: rest).getLast (List.cons_ne_nil w rest) - v|,
        (if v ≠ 0 then ((w :: rest).getLast (List.cons_ne_nil w rest) - v) / v * 100
          else 0),
        (v :: w :: rest).length,
        trendIndicator
          (if v ≠ 0 then ((w :: rest).getLast (List.cons_ne_nil w rest) - v) / v * 100
            else 0)⟩ := rfl

/-- The three branches of the trend indicator, characterised. -/
theorem trendIndicator_spec (q : ℚ) :
    (trendIndicator q = Direction.up ↔ 5 < q) ∧
    (trendIndicator q = Direction.down ↔ q < -5) ∧
    (trendIndicator q = Direction.stable ↔ -5 ≤ q ∧ q ≤ 5) := by
  unfold trendIndicator
  split_ifs with h1 h2
  · exact ⟨⟨fun _ => h1, fun _ => rfl⟩,
      ⟨False.elim, fun hq => absurd hq (by linarith)⟩,
      ⟨False.elim, fun hq => absurd h1 (not_lt.mpr hq.2)⟩⟩
  · exact ⟨⟨False.elim, fun hq => absurd hq h1⟩,
      ⟨fun _ => h2, fun _ => rfl⟩,
      ⟨False.elim, fun hq => absurd h2 (not_lt.mpr hq.1)⟩⟩
  · exact ⟨⟨False.elim, fun hq => absurd hq h1⟩,
      ⟨False.elim, fun hq => absurd hq h2⟩,
      ⟨fun _ => ⟨le_of_not_lt h2, le_of_not_lt h1⟩, fun _ => rfl⟩⟩

/-- On a character list holding no digit, the decimal body cannot match. -/
theorem noDigit_matchDecimalBody (l : List Char)
    (h : ∀ c ∈ l, isDig c = false) : matchDecimalBody l = none := by
  cases l with
  | nil => rfl
  | cons c rest =>
      have hc : isDig c = false := h c (List.mem_cons_self c rest)
      unfold matchDecimalBody
      rw [List.dropWhile_cons_of_neg (by simp [hc])]
      by_cases hdot : c = '.'
      · subst hdot
        cases rest with
        | nil => simp
        | cons d rest3 =>
            have hd : isDig d = false := h d (by simp)
            have ht : List.takeWhile isDig (d :: rest3) = [] := by
              simp [List.takeWhile_cons, hd]
            simp [ht]
      · simp [hdot]

/-- On a character list holding no digit, the first alternative fails. -/
theorem noDigit_matchAltA (l : List Char)
    (h : ∀ c ∈ l, isDig c = false) : matchAltA l = none := by
  cases l with
  | nil => rfl
  | cons c rest =>
      have htail : ∀ x ∈ rest, isDig x = false :=
        fun x hx => h x (List.mem_cons_of_mem c hx)
      unfold matchAltA
      by_cases h1 : c = '-'
      · simp [h1, noDigit_matchDecimalBody rest htail]
      · by_cases h2 : c = '+'
        · simp [h1, h2, noDigit_matchDecimalBody rest htail]
        · simp [h1, h2, noDigit_matchDecimalBody (c :: rest) h]

/-- On a character list holding no digit, the second alternative fails. -/
theorem noDigit_matchAltB (l : List Char)
    (h : ∀ c ∈ l, isDig c = false) : matchAltB l = none := by
  cases l with
  | nil => rfl
  | cons c rest =>
      unfold matchAltB
      simp [h c (List.mem_cons_self c rest)]

/-- On a character list holding no digit, the whole search fails. -/
theorem noDigit_searchFrom (l : List Char)
    (h : ∀ c ∈ l, isDig c = false) : searchFrom l = none := by
  induction l with
  | nil => rfl
  | cons c rest ih =>
      have htail : ∀ x ∈ rest, isDig x = false :=
        fun x hx => h x (List.mem_cons_of_mem c hx)
      unfold searchFrom
      rw [noDigit_matchAltA _ h, noDigit_matchAltB _ h]
      exact ih htail

/-- C1: for every marker series with at least two points, the direction
classification is up exactly when the percent change exceeds 5, down
exactly when it is below -5, and stable otherwise, with the thresholds
fixed at plus and minus 5. -/
theorem tab4_direction_thresholds (vs : List ℚ) (st : TrendStats)
    (h : computeStats vs = some st) :
    (st.direction = Direction.up ↔ 5 < st.percent) ∧
    (st.direction = Direction.down ↔ st.percent < -5) ∧
    (st.direction = Direction.stable ↔ -5 ≤ st.percent ∧ st.percent ≤ 5) := by
  cases vs with
  | nil => simp [computeStats] at h
  | cons v rest =>
      cases rest with
      | nil => simp [computeStats] at h
      | cons w rest2 =>
          rw [computeStats_cons_cons] at h
          obtain rfl : _ = st := Option.some.inj h
          exact trendIndicator_spec _

/-- C1 witness: the series with values 100 then 110 has percent change 10
and direction up, and 10 is above the 5 threshold. -/
theorem tab4_direction_thresholds_witness :
    computeStats [(100 : ℚ), 110] =
      some ⟨100, 110, 10, 10, 10, 2, Direction.up⟩ ∧
    (Direction.up = Direction.up ↔ (5 : ℚ) < 10) := by
  have h : computeStats [(100 : ℚ), 110] =
      some ⟨100, 110, 10, 10, 10, 2, Direction.up⟩ := by
    simp [computeStats, trendIndicator] <;> norm_num
  exact ⟨h, (tab4_direction_thresholds [(100 : ℚ), 110]
    ⟨100, 110, 10, 10, 10, 2, Direction.up⟩ h).1⟩

/-- C2: on a series of two or more points whose chronologically first
value is 0, the percent change is defined to be 0 by the guard
`if first_val != 0`; in the rational embedding no division is ever
performed in that case, so nothing can raise or produce infinity. -/
theorem tab4_percent_zero_baseline (vs : List ℚ) (h1 : 1 < vs.length)
    (h0 : vs.head? = some 0) :
    (computeStats vs).map TrendStats.percent = some 0 := by
  cases vs with
  | nil => simp at h1
  | cons v rest =>
      cases rest with
      | nil => simp at h1
      | cons w rest2 =>
          have hv : v = (0 : ℚ) := by simpa using h0
          subst hv
          rw [computeStats_cons_cons]
          simp

/-- C2 witness: the series with values 0 then 5 reports percent change 0. -/
theorem tab4_percent_zero_baseline_witness :
    (computeStats [(0 : ℚ), 5]).map TrendStats.percent = some 0 :=
  tab4_percent_zero_baseline [0, 5] (by norm_num) rfl

/-- C3 counterexample: for the series going from 100 down to 90 the code
computes `diff = -10` but the Total Change metric displays `abs(diff)`,
so the reported value is 10, not the signed -10 the claim states. -/
theorem tab4_total_change_display_counterexample :
    computeStats [(100 : ℚ), 90] =
      some ⟨100, 90, -10, 10, -10, 2, Direction.down⟩ ∧
    (10 : ℚ) ≠ (90 : ℚ) - 100 := by
  constructor
  · simp [computeStats, trendIndicator] <;> norm_num
  · norm_num

/-- C3 amended: the computed change `diff` equals the chronologically
latest value minus the chronologically first value (a signed quantity,
first and last in series order, not the minimum or maximum), and the
percent delta carries its sign; but the value displayed by the Total
Change metric is the absolute value of `diff`. -/
theorem tab4_signed_diff_and_displayed_abs (vs : List ℚ) (st : TrendStats)
    (h : computeStats vs = some st) :
    st.diff = st.latestVal - st.firstVal ∧
    st.totalChangeShown = |st.diff| ∧
    vs.head? = some st.firstVal ∧
    vs.getLast? = some st.latestVal := by
  cases vs with
  | nil => simp [computeStats] at h
  | cons v rest =>
      cases rest with
      | nil => simp [computeStats] at h
      | cons w rest2 =>
          rw [computeStats_cons_cons] at h
          obtain rfl : _ = st := Option.some.inj h
          refine ⟨rfl, rfl, rfl, ?_⟩
          rw [List.getLast?_eq_getLast_of_ne_nil (List.cons_ne_nil v (w :: rest2)),
            List.getLast_cons_cons]

/-- C3 witness: at the series 100 then 90 the computed diff is -10, equal
to latest minus first, and the displayed Total Change is its absolute
value 10. -/
theorem tab4_signed_diff_witness :
    ((⟨100, 90, -10, 10, -10, 2, Direction.down⟩ : TrendStats).diff =
      (⟨100, 90, -10, 10, -10, 2, Direction.down⟩ : TrendStats).latestVal -
      (⟨100, 90, -10, 10, -10, 2, Direction.down⟩ : TrendStats).firstVal) ∧
    ((⟨100, 90, -10, 10, -10, 2, Direction.down⟩ : TrendStats).totalChangeShown =
      |(⟨100, 90, -10, 10, -10, 2, Direction.down⟩ : TrendStats).diff|) ∧
    [(100 : ℚ), 90].head? =
      some (⟨100, 90, -10, 10, -10, 2, Direction.down⟩ : TrendStats).firstVal ∧
    [(100 : ℚ), 90].getLast? =
      some (⟨100, 90, -10, 10, -10, 2, Direction.down⟩ : TrendStats).latestVal :=
  tab4_signed_diff_and_displayed_abs [(100 : ℚ), 90]
    ⟨100, 90, -10, 10, -10, 2, Direction.down⟩
    (by simp [computeStats, trendIndicator] <;> norm_num)

/-- C4 counterexample: on a single-point series the statistics block
computes none of the comparison statistics at all (the code only shows the
latest value and an informational message), so no direction, percent
change or absolute change is reported, contrary to the claim. -/
theorem tab4_single_point_counterexample :
    computeStats [(100 : ℚ)] = none ∧
    latestValueShown [(100 : ℚ)] = some 100 :=
  ⟨rfl, rfl⟩

/-- C4 amended: for a series with exactly one point the code reports only
the Latest Value metric, equal to that point, and computes no first
value, change, percent or direction (an informational message is shown
instead). -/
theorem tab4_single_point_reports_latest_only :
    ∀ v : ℚ, latestValueShown [v] = some v ∧ computeStats [v] = none :=
  fun _ => ⟨rfl, rfl⟩

/-- C5: the extractor returns the first number scanning left to right,
with the decimal-with-fraction alternative tried before the bare-integer
alternative: 3.14kg yields 3.14 and not 3, 7.5 mmol/L yields 7.5, a value
prefixed by a comparison sign such as <5 yields 5, and 120/80 mmHg yields
only the first number 120. -/
theorem extract_numeric_decimal_preference :
    extractNumericStr ("3.14kg") = some (157 / 50 : ℚ) ∧
    some (157 / 50 : ℚ) ≠ some (3 : ℚ) ∧
    extractNumericStr ("7.5 mmol/L") = some (15 / 2 : ℚ) ∧
    extractNumericStr ("<5") = some 5 ∧
    extractNumericStr ("120/80 mmHg") = some 120 := by
  refine ⟨?_, by norm_num, ?_, by decide, by decide⟩
  · simp [extractNumericStr, searchFrom, matchAltA, matchAltB,
      matchDecimalBody, natOfDigits, isDig] <;> norm_num
  · simp [extractNumericStr, searchFrom, matchAltA, matchAltB,
      matchDecimalBody, natOfDigits, isDig] <;> norm_num

/-- C6 counterexample: the regex is `[-+]?\d*\.\d+|\d+`, so the optional
sign belongs only to the decimal-with-fraction alternative; on the input
-5 the first alternative fails (no dot) and the bare-integer alternative
matches the bare 5, so the result is 5, not -5 as the claim states. -/
theorem extract_numeric_sign_counterexample :
    extractNumericStr ("-5") = some 5 ∧
    extractNumericStr ("-5") ≠ some (-5 : ℚ) := by
  constructor
  · decide
  · decide

/-- C6 amended: the optional sign precedes only the decimal-with-fraction
alternative.  A minus sign followed by a bare integer is not part of the
match: for every nonempty all-digit tail the result is the unsigned
integer value, while a signed decimal such as -5.5 does keep its sign. -/
theorem extract_numeric_sign_decimal_only (ds : List Char) (h1 : ds ≠ [])
    (h2 : ∀ c ∈ ds, isDig c = true) :
    extractNumericStr (String.mk ('-' :: ds)) = some (natOfDigits ds : ℚ) ∧
    extractNumericStr ("-5.5") = some (-(11 / 2) : ℚ) := by
  constructor
  · show searchFrom ('-' :: ds) = some (natOfDigits ds : ℚ)
    have hdrop : ds.dropWhile isDig = [] := List.dropWhile_eq_nil_iff.mpr h2
    have htake : ds.takeWhile isDig = ds := List.takeWhile_eq_self_iff.mpr h2
    have hbody : matchDecimalBody ds = none := by
      unfold matchDecimalBody
      rw [hdrop]
    obtain ⟨d, rest, rfl⟩ := List.exists_cons_of_ne_nil h1
    have hd : isDig d = true := h2 d (List.mem_cons_self d rest)
    have hdm : d ≠ '-' := by
      intro e
      rw [e] at hd
      exact absurd hd (by decide)
    have hdp : d ≠ '+' := by
      intro e
      rw [e] at hd
      exact absurd hd (by decide)
    have hA1 : matchAltA ('-' :: d :: rest) = none := by
      unfold matchAltA
      simp [hbody]
    have hB1 : matchAltB ('-' :: d :: rest) = none := by
      unfold matchAltB
      simp [isDig]
    have hA2 : matchAltA (d :: rest) = none := by
      unfold matchAltA
      simp [hdm, hdp, hbody]
    have hB2 : matchAltB (d :: rest) = some (natOfDigits (d :: rest) : ℚ) := by
      unfold matchAltB
      simp [hd, htake]
    unfold searchFrom
    rw [hA1, hB1]
    unfold searchFrom
    rw [hA2, hB2]
  · simp [extractNumericStr, searchFrom, matchAltA, matchAltB,
      matchDecimalBody, natOfDigits, isDig] <;> norm_num

/-- C6 witness: the amended statement applied to the digit tail 5: the
input -5 yields the unsigned 5 and -5.5 keeps its sign. -/
theorem extract_numeric_sign_decimal_only_witness :
    extractNumericStr (String.mk ['-', '5']) = some (natOfDigits ['5'] : ℚ) ∧
    extractNumericStr ("-5.5") = some (-(11 / 2) : ℚ) :=
  extract_numeric_sign_decimal_only ['5'] (by decide) (by decide)

/-- C8: marker label normalization is lowercasing plus trimming of
surrounding whitespace, so two raw labels that normalize identically
contribute their points to one single series under the common key. -/
theorem marker_label_normalization_single_series
    (l1 l2 t1 t2 : String) (v1 v2 : PyValue) (q1 q2 : ℚ)
    (hn : normalizeLabel l1 = normalizeLabel l2)
    (h1 : extractNumeric v1 = some q1) (h2 : extractNumeric v2 = some q2) :
    buildAllMarkers [⟨t1, [(l1, v1)]⟩, ⟨t2, [(l2, v2)]⟩] =
      [⟨t1, normalizeLabel l1, q1⟩, ⟨t2, normalizeLabel l1, q2⟩] ∧
    seriesFor (buildAllMarkers [⟨t1, [(l1, v1)]⟩, ⟨t2, [(l2, v2)]⟩])
      (normalizeLabel l1) = [q1, q2] := by
  have hb : buildAllMarkers [⟨t1, [(l1, v1)]⟩, ⟨t2, [(l2, v2)]⟩] =
      [⟨t1, normalizeLabel l1, q1⟩, ⟨t2, normalizeLabel l1, q2⟩] := by
    simp [buildAllMarkers, markersOfEntry, h1, h2, hn.symm]
  refine ⟨hb, ?_⟩
  rw [hb]
  simp [seriesFor]

/-- C8 witness: the labels Glucose and space-glucose-space normalize to
the same key, and two entries carrying them land in one series holding
both values 95 and 110 in order. -/
theorem marker_label_normalization_witness :
    buildAllMarkers
        [⟨("2024-01-01"), [(("Glucose"), PyValue.pystr ("95 mg/dL"))]⟩,
         ⟨("2024-02-01"), [((" glucose "), PyValue.pystr ("110 mg/dL"))]⟩] =
      [⟨("2024-01-01"), normalizeLabel ("Glucose"), 95⟩,
       ⟨("2024-02-01"), normalizeLabel ("Glucose"), 110⟩] ∧
    seriesFor
      (buildAllMarkers
        [⟨("2024-01-01"), [(("Glucose"), PyValue.pystr ("95 mg/dL"))]⟩,
         ⟨("2024-02-01"), [((" glucose "), PyValue.pystr ("110 mg/dL"))]⟩])
      (normalizeLabel ("Glucose")) = [95, 110] :=
  marker_label_normalization_single_series ("Glucose") (" glucose ")
    ("2024-01-01") ("2024-02-01") (PyValue.pystr ("95 mg/dL"))
    (PyValue.pystr ("110 mg/dL")) 95 110 (by decide) (by decide) (by decide)

/-- C9: on a raw string containing no digit the extractor returns none
rather than a number or an error, and a history entry carrying only such
a value contributes no row to the marker index (no null placeholder). -/
theorem extract_numeric_no_digit_absent (s : String)
    (h : ∀ c ∈ s.data, c.isDigit = false) :
    extractNumericStr s = none ∧
    ∀ t l, buildAllMarkers [⟨t, [(l, PyValue.pystr s)]⟩] = [] := by
  have hs : searchFrom s.data = none := noDigit_searchFrom s.data (by simpa [isDig] using h)
  refine ⟨hs, fun t l => ?_⟩
  simp [buildAllMarkers, markersOfEntry, extractNumeric, pyStr,
    extractNumericStr, hs]

/-- C9 witness: the digit-free marker value "negative" yields none and
contributes no point to the index. -/
theorem extract_numeric_no_digit_witness :
    extractNumericStr ("negative") = none ∧
    buildAllMarkers
      [⟨("2024-01-01"), [(("ldl"), PyValue.pystr ("negative"))]⟩] = [] :=
  ⟨(extract_numeric_no_digit_absent ("negative") (by decide)).1,
   (extract_numeric_no_digit_absent ("negative") (by decide)).2
     ("2024-01-01") ("ldl")⟩

/-- C10: the extractor is total over arbitrary Python values, not only
strings: it coerces its argument through str() before matching, so every
modelled value (None, integers, booleans, lists, strings) yields either a
rational or none, never an exception; for instance None renders as the
digit-free text None and yields none, the integer -7 renders as -7 and
yields 7, and a list of two numbers yields the first. -/
theorem extract_numeric_total_via_str :
    (∀ v : PyValue, extractNumeric v = extractNumericStr (pyStr v)) ∧
    extractNumeric PyValue.pynone = none ∧
    extractNumeric (PyValue.pyint (-7)) = some 7 ∧
    extractNumeric (PyValue.pylist [PyValue.pyint 1, PyValue.pyint 2]) = some 1 ∧
    extractNumeric (PyValue.pybool true) = none ∧
    extractNumeric (PyValue.pystr ("glucose high")) = none :=
  ⟨fun _ => rfl, by decide, by decide, by decide, by decide, by decide⟩
